import Mathlib

/-!
Shallow embedding of the element-fusion backend:
the Mongoose element model (`src/app/db/db.ts`), the element service
(`src/app/lib/elementService.ts`), the element API route handlers
(`src/app/api/element/route.ts`) and the graph route
(`src/app/api/graph/route.ts`).

Stored documents form a list in insertion (natural) order.  Machine ids
(`_id`) are modelled as natural numbers; the Mongo unique index on `name`
is modelled inside `createElement`.  The outcomes of the external
collaborators (OpenAI text generation, OpenAI image generation, S3 upload)
are inputs of the embedding, packaged in `GenEnv`.  Concurrent writers are
modelled by an interference list appended to the store between the
last read of the handler and its final `createElement` call, which is the only
interleaving the fusion route is sensitive to.
-/

/-- An element document (interface `IElement` in `db.ts`): `_id`, the unique
`name`, `description`, `iconUrl`, `createdAt` and the `combinedFrom` list of
parent ids. -/
structure Element where
  id : Nat
  name : String
  description : String
  iconUrl : String
  createdAt : Nat
  combinedFrom : List Nat
deriving DecidableEq, Repr

/-- The element collection, in insertion (natural) order. -/
abbrev Store := List Element

/-- The ordering used by `getAllElements`: `sort({createdAt: -1})`, i.e. the
element created later (or at the same time) comes first. -/
def newestFirst (a b : Element) : Prop := b.createdAt ≤ a.createdAt

instance : DecidableRel newestFirst := fun a b => Nat.decLe b.createdAt a.createdAt

instance : IsTotal Element newestFirst :=
  ⟨fun a b => Or.symm (Nat.le_total a.createdAt b.createdAt)⟩

instance : IsTrans Element newestFirst :=
  ⟨fun _ _ _ h1 h2 => Nat.le_trans h2 h1⟩

/-- `getAllElements` from `elementService.ts`:
`Element.find({}).sort({createdAt: -1})`. -/
def getAllElements (db : Store) : List Element :=
  List.insertionSort newestFirst db

/-- `getElementByName` from `elementService.ts`: `Element.findOne({ name })`,
the first document in natural order whose `name` equals the query exactly. -/
def getElementByName (db : Store) (name : String) : Option Element :=
  db.find? (fun el => el.name == name)

/-- Error raised by the storage layer: the Mongo E11000 duplicate-key error
(`error.code === 11000`) from the unique index on `name` declared in the
schema (`name: { type: String, required: true, unique: true }`). -/
inductive DbError where
  | duplicateKey (name : String)
deriving DecidableEq, Repr

/-- `createElement` from `elementService.ts` combined with the schema-level
unique-name constraint: saving a document whose `name` already exists in the
collection raises the duplicate-key error, otherwise the document is appended
to the collection. -/
def createElement (db : Store) (newId now : Nat) (name iconUrl description : String)
    (combinedFrom : List Nat) : Except DbError (Element × Store) :=
  if db.any (fun el => el.name == name) then
    Except.error (DbError.duplicateKey name)
  else
    let el : Element := ⟨newId, name, description, iconUrl, now, combinedFrom⟩
    Except.ok (el, db ++ [el])

/-- `deleteAllElements` from `elementService.ts`: `Element.deleteMany({})`,
returning the deleted count and the emptied collection. -/
def deleteAllElements (db : Store) : Nat × Store := (db.length, [])

/-- The parsed output of `generateElementDetails` (`elementHelper.ts`). -/
structure ElementDescription where
  name : String
  description : String
deriving DecidableEq, Repr

/-- Outcomes of the external collaborators consumed by one POST request:
the text-generation call (which either throws or yields a parsed
`ElementDescription`), the image-generation call (which either throws or
yields a base64 string), the S3 upload (`uploadImageToS3` returns a URL or
`null`), plus the fresh `_id` and the `createdAt` timestamp of a document
created by this request. -/
structure GenEnv where
  details : Except Unit ElementDescription
  image : Except Unit String
  uploadUrl : Option String
  newId : Nat
  now : Nat
deriving Repr

/-- External operations a POST request may perform, in order. -/
inductive ExtCall where
  | genDetails
  | genImage
  | upload
  | create
deriving DecidableEq, Repr

/-- A JSON response of the element route: HTTP status, `message` field, and
the `element` field when one is returned. -/
structure ApiResponse where
  status : Nat
  message : String
  element : Option Element
deriving DecidableEq, Repr

/-- What one POST request produced: its HTTP response, the documents it
persisted (`writes`), and the external calls it performed. -/
structure PostOutcome where
  resp : ApiResponse
  writes : List Element
  calls : List ExtCall
deriving DecidableEq, Repr

/-- Lexicographic comparison of two character sequences by code unit, the
comparator of JavaScript `Array.prototype.sort()` on strings. -/
def charListLe : List Char → List Char → Bool
  | [], _ => true
  | _ :: _, [] => false
  | a :: as, b :: bs => if a < b then true else if b < a then false else charListLe as bs

/-- The default JavaScript string order: lexicographic by code unit. -/
def strLe (a b : String) : Bool := charListLe a.data b.data

/-- JavaScript `Array.prototype.sort()` on an array of strings: sort in
lexicographic code-unit order. -/
def sortStrings (l : List String) : List String :=
  List.insertionSort (fun a b : String => strLe a b = true) l

/-- One iteration of the existing-combination loop in `POST`
(`route.ts`, lines 60-63): compare the sorted stringified `combinedFrom` of a
stored element with the sorted stringified pair of parent ids. -/
def pairMatches (el : Element) (id1 id2 : Nat) : Bool :=
  sortStrings (el.combinedFrom.map toString) == sortStrings [toString id1, toString id2]

/-- The whole existing-combination scan of `POST` (`route.ts`, lines 55-71):
walk `getAllElements` and return the first stored element whose parent pair
matches. -/
def findByParentPair (db : Store) (id1 id2 : Nat) : Option Element :=
  (getAllElements db).find? (fun el => pairMatches el id1 id2)

/-- The `try` block of `POST` (`route.ts`, lines 87-126), entered when both
parents resolved and the pair-memo scan missed.  `interf` is the interference
of concurrent requests: documents committed between the reads of this request and
its final `createElement`.  The `catch` maps a duplicate-key error to a 409
conflict response and any other thrown error to a generic 500. -/
def postPipeline (env : GenEnv) (db : Store) (interf : List Element)
    (e1 e2 : Element) : PostOutcome :=
  match env.details with
  | Except.error _ =>
      ⟨⟨500, "Failed to create element.", none⟩, [], [ExtCall.genDetails]⟩
  | Except.ok d =>
    match getElementByName db d.name with
    | some existing =>
        ⟨⟨200, "Element already exists", some existing⟩, [], [ExtCall.genDetails]⟩
    | none =>
      match env.image with
      | Except.error _ =>
          ⟨⟨500, "Failed to create element.", none⟩, [],
            [ExtCall.genDetails, ExtCall.genImage]⟩
      | Except.ok img =>
        if img = "" then
          ⟨⟨500, "Failed to generate image.", none⟩, [],
            [ExtCall.genDetails, ExtCall.genImage]⟩
        else
          match env.uploadUrl with
          | none =>
              ⟨⟨500, "Failed to upload image to S3.", none⟩, [],
                [ExtCall.genDetails, ExtCall.genImage, ExtCall.upload]⟩
          | some url =>
            match createElement (db ++ interf) env.newId env.now d.name url
                d.description [e1.id, e2.id] with
            | Except.ok (el, _) =>
                ⟨⟨201, "Element created successfully", some el⟩, [el],
                  [ExtCall.genDetails, ExtCall.genImage, ExtCall.upload, ExtCall.create]⟩
            | Except.error (DbError.duplicateKey n) =>
                ⟨⟨409, "Element with name \x27" ++ n ++ "\x27 already exists.", none⟩, [],
                  [ExtCall.genDetails, ExtCall.genImage, ExtCall.upload, ExtCall.create]⟩

/-- `POST` from `route.ts`: validate the two names (JS falsiness of a string
is emptiness), resolve both parents, run the pair-memo scan when both
resolved, then run the generation pipeline.  When a parent did not resolve,
the `try` block dereferences `description` of the missing parent
(line 88) before any external call, and the thrown error is caught and
mapped to the generic 500 response. -/
def POSTfusion (env : GenEnv) (db : Store) (interf : List Element)
    (name1 name2 : String) : PostOutcome :=
  if name1 = "" ∨ name2 = "" then
    ⟨⟨400, "Missing element details for combination.", none⟩, [], []⟩
  else
    match getElementByName db name1, getElementByName db name2 with
    | some e1, some e2 =>
      match findByParentPair db e1.id e2.id with
      | some el => ⟨⟨200, "Element already exists", some el⟩, [], []⟩
      | none => postPipeline env db interf e1 e2
    | _, _ =>
      ⟨⟨500, "Failed to create element.", none⟩, [], []⟩

/-- The allow-list of the list branch of `GET` (`route.ts`, line 31). -/
def allowedElements : List String := ["Water", "Fire", "Earth", "Air"]

/-- The list branch of `GET` (`route.ts`, lines 30-35): fetch all elements
and keep those whose name is in the allow-list. -/
def GETelements (db : Store) : List Element :=
  (getAllElements db).filter (fun el => allowedElements.contains el.name)

/-- The name branch of `GET` (`route.ts`, lines 24-29): 404 when the lookup
misses, otherwise 200 with the element. -/
def GETelementByName (db : Store) (name : String) : ApiResponse :=
  match getElementByName db name with
  | none => ⟨404, "Element not found", none⟩
  | some el => ⟨200, "", some el⟩

/-- A JSON response of the DELETE handler: status, `message`, and the two
count fields when present. -/
structure DeleteResponse where
  status : Nat
  message : String
  deletedCount : Option Nat
  createdDefaultElementsCount : Option Nat
deriving DecidableEq, Repr

/-- One entry of `defaultElementsData` in `DELETE` (`route.ts`). -/
structure SeedData where
  name : String
  iconUrl : String
  description : String
deriving DecidableEq, Repr

/-- `defaultElementsData` from `DELETE` (`route.ts`, lines 150-155). -/
def defaultElementsData : List SeedData :=
  [⟨"Fire", "https://fusiongame.s3.eu-north-1.amazonaws.com/elements/fire.png",
      "A blazing element that brings warmth and light."⟩,
   ⟨"Water", "https://fusiongame.s3.eu-north-1.amazonaws.com/elements/water.png",
      "A fluid element that quenches thirst and nourishes life."⟩,
   ⟨"Earth", "https://fusiongame.s3.eu-north-1.amazonaws.com/elements/earth.png",
      "A solid element that provides stability and strength."⟩,
   ⟨"Air", "https://fusiongame.s3.eu-north-1.amazonaws.com/elements/wind.png",
      "An invisible element that carries scents and sounds."⟩]

/-- The re-seeding loop of `DELETE` (`route.ts`, lines 157-166): create each
default element with empty `combinedFrom`, collecting successes and skipping
failures.  Returns the resulting collection and the number of default
elements created.  Fresh ids are `idBase` plus the success count so far. -/
def seedDefaults (db : Store) (idBase now : Nat) : Store × Nat :=
  defaultElementsData.foldl
    (fun (acc : Store × Nat) elData =>
      match createElement acc.1 (idBase + acc.2) now elData.name elData.iconUrl
          elData.description [] with
      | Except.ok (_, db2) => (db2, acc.2 + 1)
      | Except.error _ => (acc.1, acc.2))
    (db, 0)

/-- `DELETE` from `route.ts`: the confirmation gate (`?confirm=yes` outside
production, `?confirm=ERASE_ALL_MY_DATA_REALLY` in production), then
`deleteAllElements` followed by re-seeding, reporting both counts. -/
def DELETEreset (db : Store) (isProduction : Bool) (confirm : Option String)
    (idBase now : Nat) : DeleteResponse × Store :=
  let devConfirm := !isProduction && confirm == some "yes"
  let prodConfirm := isProduction && confirm == some "ERASE_ALL_MY_DATA_REALLY"
  if !devConfirm && !prodConfirm then
    if isProduction then
      (⟨403, "Deletion in production requires specific confirmation (ERASE_ALL_MY_DATA_REALLY).",
          none, none⟩, db)
    else
      (⟨400, "To delete all elements in development, add ?confirm=yes to the URL.",
          none, none⟩, db)
  else
    let del := deleteAllElements db
    let seeded := seedDefaults del.2 idBase now
    (⟨200, "All elements deleted and default elements have been added successfully.",
        some del.1, some seeded.2⟩, seeded.1)

/-- A node of the graph route response: `{id, name, imgUrl}` where `imgUrl`
carries the `iconUrl` of the element. -/
structure GraphNode where
  id : String
  name : String
  imgUrl : String
deriving DecidableEq, Repr

/-- A link of the graph route response: `{source, target}`. -/
structure GraphLink where
  source : String
  target : String
deriving DecidableEq, Repr

/-- `GET` from `graph/route.ts`: one node per stored element, and, for every
element whose `combinedFrom` has length exactly 2, one link per parent id
pointing at the element. -/
def buildGraph (db : Store) : List GraphNode × List GraphLink :=
  let nodes := db.map (fun el => GraphNode.mk (toString el.id) el.name el.iconUrl)
  let links := (db.filter (fun el => el.combinedFrom.length == 2)).flatMap
    (fun el => el.combinedFrom.map (fun parentId =>
      GraphLink.mk (toString parentId) (toString el.id)))
  (nodes, links)

/-! ### Concrete fixtures used by witnesses and counterexamples -/

/-- The seeded Water root, as a test fixture. -/
def waterE : Element := ⟨0, "Water", "wet", "water.png", 1, []⟩

/-- The seeded Fire root, as a test fixture. -/
def fireE : Element := ⟨1, "Fire", "hot", "fire.png", 2, []⟩

/-- The seeded Earth root, as a test fixture. -/
def earthE : Element := ⟨2, "Earth", "solid", "earth.png", 3, []⟩

/-- The seeded Air root, as a test fixture. -/
def airE : Element := ⟨3, "Air", "breezy", "air.png", 4, []⟩

/-- A store holding the four seeded roots. -/
def seedStore : Store := [waterE, fireE, earthE, airE]

/-- A fused element with parents Water and Fire. -/
def steamE : Element := ⟨4, "Steam", "vapor", "steam.png", 5, [0, 1]⟩

/-- A fused element with parents Water and Earth. -/
def mudE : Element := ⟨5, "Mud", "gooey", "mud.png", 6, [0, 2]⟩

/-- An environment whose generation step yields the name Steam and whose
image and upload steps succeed. -/
def steamEnv : GenEnv := ⟨Except.ok ⟨"Steam", "vapor"⟩, Except.ok "img64", some "steam.png", 9, 9⟩

/-- An environment whose generation step yields the name Earth, colliding
with the seeded Earth root. -/
def earthEnv : GenEnv := ⟨Except.ok ⟨"Earth", "soil"⟩, Except.ok "img64", some "earth2.png", 7, 7⟩

/-- An environment whose text-generation step throws. -/
def failEnv : GenEnv := ⟨Except.error (), Except.ok "img64", some "u.png", 8, 8⟩

/-! ### Claim theorems -/

/-- C9: `getAllElements` returns every stored element, ordered
most-recently-created first (descending by `createdAt`). -/
theorem getAllElements_complete_and_newest_first (db : Store) :
    (getAllElements db).Perm db ∧
    List.Sorted (fun a b => b.createdAt ≤ a.createdAt) (getAllElements db) :=
  ⟨List.perm_insertionSort newestFirst db, List.sorted_insertionSort newestFirst db⟩

/-- C10: name lookup is case-sensitive exact string equality: a successful
`getElementByName` returns an element whose stored name is the exact query
string, looking up "water" does not find the element named "Water", and the
store-level unique-name constraint accepts a new element whose name differs
from an existing one only in letter case. -/
theorem getElementByName_case_sensitive :
    (∀ (db : Store) (n : String) (el : Element),
        getElementByName db n = some el → el.name = n) ∧
    getElementByName [waterE] "water" = none ∧
    createElement [waterE] 10 10 "water" "lower.png" "lowercase twin" [] =
      Except.ok (⟨10, "water", "lowercase twin", "lower.png", 10, []⟩,
        [waterE, ⟨10, "water", "lowercase twin", "lower.png", 10, []⟩]) := by
  refine ⟨?_, by decide, rfl⟩
  intro db n el h
  have h' : db.find? (fun el => el.name == n) = some el := h
  have hp := List.find?_some h'
  exact eq_of_beq hp

/-- C10 witness: the general exact-match property applied to the concrete
store `[waterE]` at the query "Water". -/
theorem getElementByName_case_sensitive_witness : waterE.name = "Water" :=
  getElementByName_case_sensitive.1 [waterE] "Water" waterE (by decide)

/-- C7: the list branch of GET returns only elements bearing one of the four
seed names; every returned element has an allow-listed name, and every stored
element with any other name is excluded from the response. -/
theorem GETelements_only_roots (db : Store) :
    (∀ el ∈ GETelements db, el.name ∈ allowedElements) ∧
    (∀ el ∈ db, el.name ∉ allowedElements → el ∉ GETelements db) := by
  constructor
  · intro el hel
    have hp := (List.mem_filter.mp hel).2
    simpa using hp
  · intro el _ hnot hmem
    have hp := (List.mem_filter.mp hmem).2
    exact hnot (by simpa using hp)

/-- C7 witness: in a store holding Water and the fused element Mud, Mud is
excluded from the GET response. -/
theorem GETelements_only_roots_witness : mudE ∉ GETelements [waterE, mudE] :=
  (GETelements_only_roots [waterE, mudE]).2 mudE (by decide) (by decide)

/-- The code-unit comparison is total. -/
theorem charListLe_total (a : List Char) : ∀ b, charListLe a b = true ∨ charListLe b a = true := by
  induction a with
  | nil => intro b; left; rfl
  | cons x xs ih =>
    intro b
    cases b with
    | nil => right; rfl
    | cons y ys =>
      by_cases hxy : x < y
      · left; simp [charListLe, hxy]
      · by_cases hyx : y < x
        · right; simp [charListLe, hyx]
        · rcases ih ys with h | h
          · left; simp [charListLe, hxy, hyx, h]
          · right; simp [charListLe, hxy, hyx, h]

/-- The code-unit comparison is antisymmetric. -/
theorem charListLe_antisymm (a : List Char) :
    ∀ b, charListLe a b = true → charListLe b a = true → a = b := by
  induction a with
  | nil =>
    intro b _ h2
    cases b with
    | nil => rfl
    | cons y ys => simp [charListLe] at h2
  | cons x xs ih =>
    intro b h1 h2
    cases b with
    | nil => simp [charListLe] at h1
    | cons y ys =>
      by_cases hxy : x < y
      · have hyx : ¬ y < x := lt_asymm hxy
        simp [charListLe, hxy, hyx] at h2
      · by_cases hyx : y < x
        · simp [charListLe, hxy, hyx] at h1
        · have hxyeq : x = y := le_antisymm (le_of_not_lt hyx) (le_of_not_lt hxy)
          subst hxyeq
          simp only [charListLe, lt_irrefl, if_false] at h1 h2
          rw [ih ys h1 h2]

/-- Sorting a two-element string array is insensitive to the order of the two
entries (the behavior of `[x, y].sort()` in the memo check). -/
theorem sortStrings_pair_swap (a b : String) : sortStrings [a, b] = sortStrings [b, a] := by
  by_cases h1 : strLe a b = true
  · by_cases h2 : strLe b a = true
    · have hdata : a.data = b.data := charListLe_antisymm a.data b.data h1 h2
      have hab : a = b := by cases a; cases b; simp at hdata; rw [hdata]
      subst hab; rfl
    · simp [sortStrings, List.insertionSort, List.orderedInsert, h1, h2]
  · have h2 : strLe b a = true := by
      rcases charListLe_total a.data b.data with h | h
      · exact absurd h h1
      · exact h
    simp [sortStrings, List.insertionSort, List.orderedInsert, h1, h2]

/-- The per-element memo comparison is order-independent in the parent ids. -/
theorem pairMatches_swap (el : Element) (id1 id2 : Nat) :
    pairMatches el id1 id2 = pairMatches el id2 id1 := by
  unfold pairMatches
  rw [sortStrings_pair_swap]

/-- The memo scan is order-independent in the parent ids. -/
theorem findByParentPair_swap (db : Store) (id1 id2 : Nat) :
    findByParentPair db id1 id2 = findByParentPair db id2 id1 := by
  unfold findByParentPair
  have hfun : (fun el => pairMatches el id1 id2) = (fun el => pairMatches el id2 id1) :=
    funext fun el => pairMatches_swap el id1 id2
  rw [hfun]

/-- When both names resolve and the memo scan hits, POST answers 200 with the
memoized element and performs no external call and no write. -/
theorem POSTfusion_memo_hit (env : GenEnv) (db : Store) (interf : List Element)
    (name1 name2 : String) (e1 e2 el : Element)
    (h1 : name1 ≠ "") (h2 : name2 ≠ "")
    (hl1 : getElementByName db name1 = some e1)
    (hl2 : getElementByName db name2 = some e2)
    (hmemo : findByParentPair db e1.id e2.id = some el) :
    POSTfusion env db interf name1 name2 =
      ⟨⟨200, "Element already exists", some el⟩, [], []⟩ := by
  unfold POSTfusion
  rw [if_neg (not_or.mpr ⟨h1, h2⟩), hl1, hl2]
  simp [hmemo]

/-- When both names resolve and the memo scan misses, POST runs the try-block
pipeline on the two resolved parents. -/
theorem POSTfusion_pipeline (env : GenEnv) (db : Store) (interf : List Element)
    (name1 name2 : String) (e1 e2 : Element)
    (h1 : name1 ≠ "") (h2 : name2 ≠ "")
    (hl1 : getElementByName db name1 = some e1)
    (hl2 : getElementByName db name2 = some e2)
    (hmemo : findByParentPair db e1.id e2.id = none) :
    POSTfusion env db interf name1 name2 = postPipeline env db interf e1 e2 := by
  unfold POSTfusion
  rw [if_neg (not_or.mpr ⟨h1, h2⟩), hl1, hl2]
  simp [hmemo]

/-- C3: the pair-memo check is order-independent: each stored element is
matched the same way for the pair (id1, id2) as for (id2, id1), the scan
resolves to the same stored element for both orders, and consequently, when
the memo resolves, the two POST requests (A, B) and (B, A) produce identical
outcomes. -/
theorem findByParentPair_symmetric (db : Store) (id1 id2 : Nat) :
    (∀ el : Element, pairMatches el id1 id2 = pairMatches el id2 id1) ∧
    findByParentPair db id1 id2 = findByParentPair db id2 id1 ∧
    (∀ (env : GenEnv) (interf : List Element) (name1 name2 : String) (e1 e2 : Element),
      name1 ≠ "" → name2 ≠ "" →
      getElementByName db name1 = some e1 →
      getElementByName db name2 = some e2 →
      (findByParentPair db e1.id e2.id).isSome →
      POSTfusion env db interf name1 name2 = POSTfusion env db interf name2 name1) := by
  refine ⟨fun el => pairMatches_swap el id1 id2, findByParentPair_swap db id1 id2, ?_⟩
  intro env interf name1 name2 e1 e2 h1 h2 hl1 hl2 hsome
  obtain ⟨el, hel⟩ := Option.isSome_iff_exists.mp hsome
  have hel2 : findByParentPair db e2.id e1.id = some el := by
    rw [findByParentPair_swap db e2.id e1.id]; exact hel
  rw [POSTfusion_memo_hit env db interf name1 name2 e1 e2 el h1 h2 hl1 hl2 hel,
    POSTfusion_memo_hit env db interf name2 name1 e2 e1 el h2 h1 hl2 hl1 hel2]

/-- C3 witness: in a store holding Water, Fire and their fused child Steam,
the requests (Water, Fire) and (Fire, Water) produce identical outcomes. -/
theorem findByParentPair_symmetric_witness :
    POSTfusion steamEnv [waterE, fireE, steamE] [] "Water" "Fire" =
      POSTfusion steamEnv [waterE, fireE, steamE] [] "Fire" "Water" :=
  (findByParentPair_symmetric [waterE, fireE, steamE] 0 1).2.2 steamEnv [] "Water" "Fire"
    waterE fireE (by decide) (by decide) (by decide) (by decide) (by decide)

/-- C5: when the request passes the pair-memo check and the generated name
already names a stored element, POST returns that pre-existing element with
the 200 already-exists result, performs no image generation, no upload and no
store creation (its only external call is the detail generation), and writes
nothing, leaving every stored element — including the pre-existing one and
its `combinedFrom` — untouched. -/
theorem name_collision_returns_existing (env : GenEnv) (db : Store) (interf : List Element)
    (name1 name2 : String) (e1 e2 : Element) (d : ElementDescription) (ex : Element)
    (h1 : name1 ≠ "") (h2 : name2 ≠ "")
    (hl1 : getElementByName db name1 = some e1)
    (hl2 : getElementByName db name2 = some e2)
    (hmemo : findByParentPair db e1.id e2.id = none)
    (hd : env.details = Except.ok d)
    (hex : getElementByName db d.name = some ex) :
    POSTfusion env db interf name1 name2 =
      ⟨⟨200, "Element already exists", some ex⟩, [], [ExtCall.genDetails]⟩ := by
  rw [POSTfusion_pipeline env db interf name1 name2 e1 e2 h1 h2 hl1 hl2 hmemo]
  unfold postPipeline
  rw [hd]
  simp [hex]

/-- C5 witness: fusing Water and Fire under an environment that generates the
name Earth returns the seeded Earth element with no write and only the
text-generation call. -/
theorem name_collision_returns_existing_witness :
    POSTfusion earthEnv seedStore [] "Water" "Fire" =
      ⟨⟨200, "Element already exists", some earthE⟩, [], [ExtCall.genDetails]⟩ :=
  name_collision_returns_existing earthEnv seedStore [] "Water" "Fire" waterE fireE
    ⟨"Earth", "soil"⟩ earthE (by decide) (by decide) (by decide) (by decide) (by decide)
    rfl (by decide)

/-- C1 counterexample: a run that reaches the final creation step and fails
with the duplicate-key error (the generated name Steam was committed
concurrently) is answered with a 409 error response carrying no element —
not with a success-by-convergence re-fetch. -/
theorem post_duplicate_surfaces_conflict :
    createElement (seedStore ++ [steamE]) steamEnv.newId steamEnv.now "Steam" "steam.png"
      "vapor" [0, 1] = Except.error (DbError.duplicateKey "Steam") ∧
    (POSTfusion steamEnv seedStore [steamE] "Water" "Fire").resp.status = 409 ∧
    (POSTfusion steamEnv seedStore [steamE] "Water" "Fire").resp.element = none ∧
    (POSTfusion steamEnv seedStore [steamE] "Water" "Fire").writes = [] :=
  ⟨rfl, by decide, by decide, by decide⟩

/-- C1 (amended): when the final creation step fails with the duplicate-key
error, POST surfaces a 409 conflict response naming the duplicate and
persists nothing; it does not re-fetch the element or report success. -/
theorem post_duplicate_returns_409 (env : GenEnv) (db : Store) (interf : List Element)
    (name1 name2 : String) (e1 e2 : Element) (d : ElementDescription) (img url : String)
    (h1 : name1 ≠ "") (h2 : name2 ≠ "")
    (hl1 : getElementByName db name1 = some e1)
    (hl2 : getElementByName db name2 = some e2)
    (hmemo : findByParentPair db e1.id e2.id = none)
    (hd : env.details = Except.ok d)
    (hfresh : getElementByName db d.name = none)
    (himg : env.image = Except.ok img) (hne : img ≠ "")
    (hurl : env.uploadUrl = some url)
    (hdup : (db ++ interf).any (fun el => el.name == d.name) = true) :
    POSTfusion env db interf name1 name2 =
      ⟨⟨409, "Element with name \x27" ++ d.name ++ "\x27 already exists.", none⟩, [],
        [ExtCall.genDetails, ExtCall.genImage, ExtCall.upload, ExtCall.create]⟩ := by
  rw [POSTfusion_pipeline env db interf name1 name2 e1 e2 h1 h2 hl1 hl2 hmemo]
  unfold postPipeline
  rw [hd]
  simp [hfresh, himg, hurl, hne, createElement, hdup]

/-- C1 witness for the amended claim: the concrete duplicate-at-create run is
answered with the 409 conflict response. -/
theorem post_duplicate_returns_409_witness :
    POSTfusion steamEnv seedStore [steamE] "Water" "Fire" =
      ⟨⟨409, "Element with name \x27" ++ "Steam" ++ "\x27 already exists.", none⟩, [],
        [ExtCall.genDetails, ExtCall.genImage, ExtCall.upload, ExtCall.create]⟩ :=
  post_duplicate_returns_409 steamEnv seedStore [steamE] "Water" "Fire" waterE fireE
    ⟨"Steam", "vapor"⟩ "img64" "steam.png" (by decide) (by decide) (by decide) (by decide)
    (by decide) rfl (by decide) rfl (by decide) rfl (by decide)

/-- C2 counterexample: for the request (Water, Bogus) on the seeded store,
where Bogus does not resolve, POST answers with status 500 — not with a 4xx
not-found style error — though indeed no element is created. -/
theorem post_unknown_parent_is_500 :
    getElementByName seedStore "Bogus" = none ∧
    (POSTfusion steamEnv seedStore [] "Water" "Bogus").resp.status = 500 ∧
    ¬(400 ≤ (POSTfusion steamEnv seedStore [] "Water" "Bogus").resp.status ∧
        (POSTfusion steamEnv seedStore [] "Water" "Bogus").resp.status < 500) ∧
    (POSTfusion steamEnv seedStore [] "Water" "Bogus").writes = [] := by
  decide

/-- C2 (amended): when both names are non-empty but at least one does not
resolve, the missing parent is dereferenced inside the try block and the
catch answers the generic 500 failed-to-create response; no external call is
made and no element is created. -/
theorem post_missing_parent_generic_500 (env : GenEnv) (db : Store) (interf : List Element)
    (name1 name2 : String) (h1 : name1 ≠ "") (h2 : name2 ≠ "")
    (hmiss : getElementByName db name1 = none ∨ getElementByName db name2 = none) :
    POSTfusion env db interf name1 name2 =
      ⟨⟨500, "Failed to create element.", none⟩, [], []⟩ := by
  unfold POSTfusion
  rw [if_neg (not_or.mpr ⟨h1, h2⟩)]
  rcases hmiss with hm | hm
  · rw [hm]
  · cases hfirst : getElementByName db name1 with
    | none => rfl
    | some e1 => rw [hm]

/-- C2 witness for the amended claim: the concrete (Water, Bogus) request is
answered with the generic 500 response and no write. -/
theorem post_missing_parent_generic_500_witness :
    POSTfusion steamEnv seedStore [] "Water" "Bogus" =
      ⟨⟨500, "Failed to create element.", none⟩, [], []⟩ :=
  post_missing_parent_generic_500 steamEnv seedStore [] "Water" "Bogus" (by decide) (by decide)
    (Or.inr (by decide))

/-- Guard property of the try-block pipeline: a failing step yields the 500
error with no write and no create call, and the create call only ever happens
after all three earlier steps succeeded. -/
theorem postPipeline_failure_no_create (env : GenEnv) (db : Store) (interf : List Element)
    (e1 e2 : Element) :
    (((ExtCall.genDetails ∈ (postPipeline env db interf e1 e2).calls ∧
        (∃ e, env.details = Except.error e)) ∨
      (ExtCall.genImage ∈ (postPipeline env db interf e1 e2).calls ∧
        ((∃ e, env.image = Except.error e) ∨ env.image = Except.ok "")) ∨
      (ExtCall.upload ∈ (postPipeline env db interf e1 e2).calls ∧
        env.uploadUrl = none)) →
      (postPipeline env db interf e1 e2).resp.status = 500 ∧
      (postPipeline env db interf e1 e2).writes = [] ∧
      ExtCall.create ∉ (postPipeline env db interf e1 e2).calls) ∧
    (ExtCall.create ∈ (postPipeline env db interf e1 e2).calls →
      (∃ d, env.details = Except.ok d) ∧
      (∃ img, env.image = Except.ok img ∧ img ≠ "") ∧
      (∃ url, env.uploadUrl = some url)) := by
  obtain ⟨dets, im, up, nid, nw⟩ := env
  unfold postPipeline
  dsimp only
  cases dets with
  | error e =>
    dsimp only
    exact ⟨fun _ => ⟨rfl, rfl, by simp⟩, fun hc => by simp at hc⟩
  | ok d =>
    dsimp only
    cases hex : getElementByName db d.name with
    | some ex =>
      dsimp only
      refine ⟨?_, fun hc => by simp at hc⟩
      rintro (⟨_, e, he⟩ | ⟨hm, _⟩ | ⟨hm, _⟩)
      · simp at he
      · simp at hm
      · simp at hm
    | none =>
      dsimp only
      cases im with
      | error e =>
        dsimp only
        exact ⟨fun _ => ⟨rfl, rfl, by simp⟩, fun hc => by simp at hc⟩
      | ok img =>
        dsimp only
        by_cases himg : img = ""
        · subst himg
          rw [if_pos rfl]
          exact ⟨fun _ => ⟨rfl, rfl, by simp⟩, fun hc => by simp at hc⟩
        · rw [if_neg himg]
          cases up with
          | none =>
            dsimp only
            exact ⟨fun _ => ⟨rfl, rfl, by simp⟩, fun hc => by simp at hc⟩
          | some url =>
            dsimp only
            cases hcr : createElement (db ++ interf) nid nw d.name url
                d.description [e1.id, e2.id] with
            | ok pr =>
              obtain ⟨el, rest⟩ := pr
              dsimp only
              refine ⟨?_, fun _ => ⟨⟨d, rfl⟩, ⟨img, rfl, himg⟩, ⟨url, rfl⟩⟩⟩
              rintro (⟨_, e, he⟩ | ⟨_, (⟨e, he⟩ | he)⟩ | ⟨_, he⟩)
              · simp at he
              · simp at he
              · simp only [Except.ok.injEq] at he
                exact absurd he himg
              · simp at he
            | error err =>
              cases err with
              | duplicateKey n =>
                dsimp only
                refine ⟨?_, fun _ => ⟨⟨d, rfl⟩, ⟨img, rfl, himg⟩, ⟨url, rfl⟩⟩⟩
                rintro (⟨_, e, he⟩ | ⟨_, (⟨e, he⟩ | he)⟩ | ⟨_, he⟩)
                · simp at he
                · simp at he
                · simp only [Except.ok.injEq] at he
                  exact absurd he himg
                · simp at he

/-- C4: if any pipeline step before the final create fails — detail
generation throws, image generation throws or yields an empty payload, or
the icon upload yields no URL — the request answers with a 500 error, writes
nothing to the store, and the store create operation is never invoked;
conversely, the create operation is only invoked on a request in which
detail generation, image generation and icon upload all succeeded. -/
theorem pipeline_failure_no_create (env : GenEnv) (db : Store) (interf : List Element)
    (name1 name2 : String) :
    (((ExtCall.genDetails ∈ (POSTfusion env db interf name1 name2).calls ∧
        (∃ e, env.details = Except.error e)) ∨
      (ExtCall.genImage ∈ (POSTfusion env db interf name1 name2).calls ∧
        ((∃ e, env.image = Except.error e) ∨ env.image = Except.ok "")) ∨
      (ExtCall.upload ∈ (POSTfusion env db interf name1 name2).calls ∧
        env.uploadUrl = none)) →
      (POSTfusion env db interf name1 name2).resp.status = 500 ∧
      (POSTfusion env db interf name1 name2).writes = [] ∧
      ExtCall.create ∉ (POSTfusion env db interf name1 name2).calls) ∧
    (ExtCall.create ∈ (POSTfusion env db interf name1 name2).calls →
      (∃ d, env.details = Except.ok d) ∧
      (∃ img, env.image = Except.ok img ∧ img ≠ "") ∧
      (∃ url, env.uploadUrl = some url)) := by
  unfold POSTfusion
  split
  · refine ⟨?_, fun hc => by simp at hc⟩
    rintro (⟨hm, _⟩ | ⟨hm, _⟩ | ⟨hm, _⟩) <;> simp at hm
  · split
    · split
      · refine ⟨?_, fun hc => by simp at hc⟩
        rintro (⟨hm, _⟩ | ⟨hm, _⟩ | ⟨hm, _⟩) <;> simp at hm
      · exact postPipeline_failure_no_create env db interf _ _
    · refine ⟨?_, fun hc => by simp at hc⟩
      rintro (⟨hm, _⟩ | ⟨hm, _⟩ | ⟨hm, _⟩) <;> simp at hm

/-- C4 witness: under an environment whose text generation throws, the
concrete (Water, Fire) request answers 500, writes nothing, and never reaches
the store create. -/
theorem pipeline_failure_no_create_witness :
    (POSTfusion failEnv seedStore [] "Water" "Fire").resp.status = 500 ∧
    (POSTfusion failEnv seedStore [] "Water" "Fire").writes = [] ∧
    ExtCall.create ∉ (POSTfusion failEnv seedStore [] "Water" "Fire").calls :=
  (pipeline_failure_no_create failEnv seedStore [] "Water" "Fire").1
    (Or.inl ⟨by decide, ⟨(), rfl⟩⟩)

/-- C6: on stores whose elements have either no parents or exactly two (the
only shapes the API ever persists), `buildGraph` yields exactly one node
(id, name, icon URL) per stored element and exactly one directed edge per
parent id of every element — so a fused element with two parents contributes
two edges, and an element with empty `combinedFrom` contributes zero edges
and one node. -/
theorem buildGraph_nodes_links (db : Store)
    (hinv : ∀ el ∈ db, el.combinedFrom = [] ∨ el.combinedFrom.length = 2) :
    (buildGraph db).1.length = db.length ∧
    (buildGraph db).1 = db.map (fun el => GraphNode.mk (toString el.id) el.name el.iconUrl) ∧
    (buildGraph db).2 = db.flatMap (fun el => el.combinedFrom.map (fun parentId =>
      GraphLink.mk (toString parentId) (toString el.id))) := by
  have key : ∀ (l : Store), (∀ el ∈ l, el.combinedFrom = [] ∨ el.combinedFrom.length = 2) →
      (l.filter (fun el => el.combinedFrom.length == 2)).flatMap
        (fun el => el.combinedFrom.map (fun parentId =>
          GraphLink.mk (toString parentId) (toString el.id))) =
      l.flatMap (fun el => el.combinedFrom.map (fun parentId =>
        GraphLink.mk (toString parentId) (toString el.id))) := by
    intro l
    induction l with
    | nil => intro _; rfl
    | cons el rest ih =>
      intro hl
      have hel := hl el (by simp)
      have hrest := ih (fun e he => hl e (List.mem_cons_of_mem _ he))
      rcases hel with h0 | h2
      · simp [List.filter_cons, h0, hrest]
      · simp [List.filter_cons, h2, hrest]
  exact ⟨by simp [buildGraph], rfl, by simpa [buildGraph] using key db hinv⟩

/-- C6 witness: on the store holding Water, Fire and their fused child
Steam, the invariant holds and the links are exactly one edge per parent. -/
theorem buildGraph_nodes_links_witness :
    (∀ el ∈ [waterE, fireE, steamE], el.combinedFrom = [] ∨ el.combinedFrom.length = 2) ∧
    (buildGraph [waterE, fireE, steamE]).2 =
      [waterE, fireE, steamE].flatMap (fun el => el.combinedFrom.map (fun parentId =>
        GraphLink.mk (toString parentId) (toString el.id))) :=
  ⟨by decide, (buildGraph_nodes_links [waterE, fireE, steamE] (by decide)).2.2⟩

/-- Seeding the emptied collection creates exactly the four default elements,
in order Fire, Water, Earth, Air, each with empty `combinedFrom`. -/
theorem seedDefaults_nil (idBase now : Nat) :
    seedDefaults [] idBase now =
      ([⟨idBase + 0, "Fire", "A blazing element that brings warmth and light.",
          "https://fusiongame.s3.eu-north-1.amazonaws.com/elements/fire.png", now, []⟩,
        ⟨idBase + 1, "Water", "A fluid element that quenches thirst and nourishes life.",
          "https://fusiongame.s3.eu-north-1.amazonaws.com/elements/water.png", now, []⟩,
        ⟨idBase + 2, "Earth", "A solid element that provides stability and strength.",
          "https://fusiongame.s3.eu-north-1.amazonaws.com/elements/earth.png", now, []⟩,
        ⟨idBase + 3, "Air", "An invisible element that carries scents and sounds.",
          "https://fusiongame.s3.eu-north-1.amazonaws.com/elements/wind.png", now, []⟩], 4) := by
  rfl

/-- C8: a DELETE with a valid confirmation token empties the store and
re-seeds it: exactly four elements remain, named Water, Fire, Air and Earth,
each with empty `combinedFrom`, and the 200 response reports the deleted
count and the four re-created seeds. -/
theorem reset_reseeds_four_roots (db : Store) (isProduction : Bool)
    (confirm : Option String) (idBase now : Nat)
    (hconfirm : (isProduction = false ∧ confirm = some "yes") ∨
      (isProduction = true ∧ confirm = some "ERASE_ALL_MY_DATA_REALLY")) :
    (DELETEreset db isProduction confirm idBase now).2.length = 4 ∧
    ((DELETEreset db isProduction confirm idBase now).2.map Element.name).Perm
      ["Water", "Fire", "Air", "Earth"] ∧
    (∀ el ∈ (DELETEreset db isProduction confirm idBase now).2, el.combinedFrom = []) ∧
    (DELETEreset db isProduction confirm idBase now).1.status = 200 ∧
    (DELETEreset db isProduction confirm idBase now).1.deletedCount = some db.length ∧
    (DELETEreset db isProduction confirm idBase now).1.createdDefaultElementsCount = some 4 := by
  have hres : DELETEreset db isProduction confirm idBase now =
      (⟨200, "All elements deleted and default elements have been added successfully.",
        some db.length, some 4⟩, (seedDefaults [] idBase now).1) := by
    rcases hconfirm with ⟨hp, hc⟩ | ⟨hp, hc⟩ <;> subst hp <;> subst hc <;> rfl
  rw [hres]
  refine ⟨?_, ?_, ?_, rfl, rfl, rfl⟩
  · rw [seedDefaults_nil]; rfl
  · rw [seedDefaults_nil]
    exact (by decide : (["Fire", "Water", "Earth", "Air"] : List String).Perm
      ["Water", "Fire", "Air", "Earth"])
  · rw [seedDefaults_nil]
    intro el hel
    simp only [List.mem_cons, List.not_mem_nil, or_false] at hel
    rcases hel with h | h | h | h <;> subst h <;> rfl

/-- C8 witness: resetting the seeded store in development with
`?confirm=yes` leaves exactly four elements named Water, Fire, Air, Earth. -/
theorem reset_reseeds_four_roots_witness :
    (DELETEreset seedStore false (some "yes") 10 20).2.length = 4 ∧
    ((DELETEreset seedStore false (some "yes") 10 20).2.map Element.name).Perm
      ["Water", "Fire", "Air", "Earth"] :=
  ⟨(reset_reseeds_four_roots seedStore false (some "yes") 10 20 (Or.inl ⟨rfl, rfl⟩)).1,
   (reset_reseeds_four_roots seedStore false (some "yes") 10 20 (Or.inl ⟨rfl, rfl⟩)).2.1⟩
